import Mathlib

/-!
Verification of the metadata pipeline in `metadata_update.py` of the
`openneuro_metadata` repository.

The script fetches dataset metadata from a GraphQL endpoint page by page,
normalizes every record into a flat row of strings, and writes the rows,
deduplicated and sorted by accession number, to a CSV file.  We give a
shallow embedding of the script: Python strings become Lean `String`s
(all character-level operations are re-implemented structurally so that
they evaluate inside the kernel), JSON nullability becomes `Option`, and
Python exceptions become `Except PyErr`.
-/

/-- The Python exceptions that the script can raise, plus a marker for a
failed HTTP request / JSON parse. -/
inductive PyErr where
  | typeError
  | valueError
  | keyError
  | indexError
  | nameError
  | transportError
deriving DecidableEq

instance {ε α : Type} [DecidableEq ε] [DecidableEq α] : DecidableEq (Except ε α) := fun x y =>
  match x, y with
  | Except.ok a, Except.ok b =>
    if h : a = b then isTrue (by rw [h]) else isFalse (by simp [h])
  | Except.error a, Except.error b =>
    if h : a = b then isTrue (by rw [h]) else isFalse (by simp [h])
  | Except.ok _, Except.error _ => isFalse (by simp)
  | Except.error _, Except.ok _ => isFalse (by simp)

/-! ### Character-level string operations

Python string primitives (`in`, `split`, `join`, `lower`, slicing) are
modelled on `String.data` with structural recursion so that concrete
instances reduce by `decide`/`rfl`. -/

/-- Does the first list start with the second one? (prefix test used to
model Python's substring search). -/
def startsWithChars : List Char → List Char → Bool
  | _, [] => true
  | [], _ :: _ => false
  | a :: as, b :: bs => b = a && startsWithChars as bs

/-- First occurrence of `needle` inside `hay`: returns the part before and
the part after the occurrence.  `none` when `needle` does not occur. -/
def findSub : List Char → List Char → Option (List Char × List Char)
  | hay, needle =>
    match hay with
    | [] => if needle = [] then some ([], []) else none
    | c :: rest =>
      if startsWithChars (c :: rest) needle then
        some ([], (c :: rest).drop needle.length)
      else
        match findSub rest needle with
        | some (pre, post) => some (c :: pre, post)
        | none => none

/-- Models Python `needle in hay` for strings. -/
def containsSub (hay needle : String) : Bool :=
  (findSub hay.data needle.data).isSome

/-- Models `hay.split(needle, 1)[1]`: the part after the first occurrence
of `needle`; `none` models the `IndexError` when `needle` is absent. -/
def partAfterFirst (hay needle : String) : Option String :=
  (findSub hay.data needle.data).map (fun p => String.mk p.2)

/-- Models Python `s.split(sep)` for a one-character separator: splits at
every occurrence, keeping empty parts.  Always returns a non-empty list. -/
def splitOnChar (sep : Char) : List Char → List (List Char)
  | [] => [[]]
  | c :: rest =>
    match splitOnChar sep rest with
    | [] => []
    | w :: ws => if c = sep then [] :: w :: ws else (c :: w) :: ws

/-- Models Python `sep.join(parts)`. -/
def joinSep (sep : String) : List String → String
  | [] => ""
  | [x] => x
  | x :: y :: xs => x ++ sep ++ joinSep sep (y :: xs)

/-- ASCII lower-casing of one character (models `str.lower` on the ASCII
modality names the script handles). -/
def charLower (c : Char) : Char :=
  if 'A' ≤ c ∧ c ≤ 'Z' then Char.ofNat (c.toNat + 32) else c

/-- Models Python `s.lower()` (ASCII). -/
def lowerStr (s : String) : String :=
  String.mk (s.data.map charLower)

/-- Models the Python slice `s[:n]`. -/
def takeChars (n : Nat) (s : String) : String :=
  String.mk (s.data.take n)

/-! ### Fixed lookup tables of the script -/

/-- `scan_dict` from the source. -/
def scan_dict : List (String × String) :=
  [("anatomical", "anat"), ("structural", "anat"), ("functional", "func"),
   ("behavioral", "beh"), ("diffusion", "dwi"), ("perfusion", "perf")]

/-- `age_dict` from the source: inclusive bucket bounds paired with the
bucket label, in the dictionary's fixed insertion order. -/
def age_dict : List ((Int × Int) × String) :=
  [((0, 10), "0-10"), ((11, 17), "11-17"), ((18, 25), "18-25"),
   ((26, 34), "26-34"), ((35, 50), "35-50"), ((51, 65), "51-65"),
   ((66, 1000), "66+")]

/-! ### `format_modalities` -/

/-- The body of the rewriting loop in `format_modalities`: an entry that
contains `"MRI"` is rewritten as `"MRI - "` plus the `scan_dict` code of
the lower-cased part after `"MRI_"`; other entries pass through.  A
missing `"MRI_"` part raises `IndexError` (`m.split("MRI_", 1)[1]`), a
scan type missing from `scan_dict` raises `KeyError`. -/
def rewriteMod (m : String) : Except PyErr String :=
  if containsSub m "MRI" then
    match partAfterFirst m "MRI_" with
    | none => Except.error PyErr.indexError
    | some tail =>
      match scan_dict.lookup (lowerStr tail) with
      | none => Except.error PyErr.keyError
      | some code => Except.ok ("MRI - " ++ code)
  else
    Except.ok m

/-- The rewriting loop of `format_modalities` over the whole list,
left to right, aborting at the first exception. -/
def rewriteMods : List String → Except PyErr (List String)
  | [] => Except.ok []
  | m :: rest => do
    let r ← rewriteMod m
    let rs ← rewriteMods rest
    Except.ok (r :: rs)

/-- Models Python `list.remove(v)`: drops the first occurrence of `v`. -/
def removeFirst : List String → String → List String
  | [], _ => []
  | x :: xs, v => if x = v then xs else x :: removeFirst xs v

/-- `format_modalities` from the source.  When some entry contains the
substring `"MRI_"`, the first `"MRI"` entry is removed
(`all_modalities.remove("MRI")` raises `ValueError` when absent) and the
remaining entries are rewritten; otherwise the list is joined as is. -/
def format_modalities (all_modalities : List String) : Except PyErr String :=
  if all_modalities.any (fun e => containsSub e "MRI_") then
    if "MRI" ∈ all_modalities then do
      let l := removeFirst all_modalities "MRI"
      let parts ← rewriteMods l
      Except.ok (joinSep ", " parts)
    else
      Except.error PyErr.valueError
  else
    Except.ok (joinSep ", " all_modalities)

/-! ### `format_ages` -/

/-- Models the Python truthiness filter `if x["age"]` applied to one
subject-metadata entry: a null age and an age of `0` are dropped. -/
def truthyAge : Option Int → Option Int
  | none => none
  | some x => if x = 0 then none else some x

/-- Insertion step of the ascending sort used to model Python `sorted`. -/
def insortAsc (x : Int) : List Int → List Int
  | [] => [x]
  | y :: ys => if x ≤ y then x :: y :: ys else y :: insortAsc x ys

/-- Models Python `sorted` on a list of integers. -/
def sortAsc : List Int → List Int
  | [] => []
  | x :: xs => insortAsc x (sortAsc xs)

/-- `format_ages` from the source.  The argument models
`summary["subjectMetadata"]` (`none` for JSON null); each entry is that
entry's `age` value.  A falsy list (null or empty) yields `""`. -/
def format_ages (raw_age_list : Option (List (Option Int))) : String :=
  match raw_age_list with
  | none => ""
  | some l =>
    if l.isEmpty then ""
    else
      joinSep ", " (((age_dict.filter (fun kv =>
        (sortAsc (l.filterMap truthyAge)).any (fun x =>
          decide (kv.1.1 ≤ x) && decide (x ≤ kv.1.2)))).map (fun kv => kv.2)))

/-! ### `format_name` -/

/-- `format_name` from the source.  The argument models the raw
`SeniorAuthor` value (`none` for JSON null).  A falsy name (null or the
empty string) yields `""`; a name containing a comma passes through;
otherwise the last space-separated token becomes the surname. -/
def format_name (name : Option String) : String :=
  match name with
  | none => ""
  | some n =>
    if n.data = [] then ""
    else if ¬ (',' ∈ n.data) then
      String.mk ((splitOnChar ' ' n.data).getLastD [] ++ [',', ' '] ++
        List.intercalate [' '] ((splitOnChar ' ' n.data).dropLast))
    else n

/-! ### `code_bool` -/

/-- `code_bool` from the source.  The parent dictionary is modelled as an
association list restricted to the boolean-valued metadata fields the
script passes to `code_bool`; a value of `none` models JSON null. -/
def code_bool (parent : List (String × Option Bool)) (field : String) : String :=
  match parent.lookup field with
  | none => "n/a"
  | some (some true) => "Yes"
  | some (some false) => "No"
  | some none => "n/a"

/-! ### Date handling

`datetime.strptime(s[:10], "%Y-%m-%d").strftime("%Y-%m-%d")` is modelled
for the zero-padded ISO dates the API serves: exactly four year digits,
two month digits and two day digits, with months in 1..12 and days in
1..31 (the library additionally rejects impossible calendar days; no
claim depends on that).  A failed parse models `ValueError`. -/

/-- Value of an all-digit character list, most significant digit first. -/
def digitsValAux (acc : Nat) : List Char → Nat
  | [] => acc
  | c :: rest => digitsValAux (acc * 10 + (c.toNat - 48)) rest

/-- Models `datetime.strptime(s, "%Y-%m-%d")`: `none` is a `ValueError`. -/
def strptimeYmd (s : String) : Option (Nat × Nat × Nat) :=
  match splitOnChar '-' s.data with
  | [y, m, d] =>
    if y.length = 4 ∧ m.length = 2 ∧ d.length = 2 ∧
       (y ++ m ++ d).all Char.isDigit then
      let yv := digitsValAux 0 y
      let mv := digitsValAux 0 m
      let dv := digitsValAux 0 d
      if 1 ≤ mv ∧ mv ≤ 12 ∧ 1 ≤ dv ∧ dv ≤ 31 then some (yv, mv, dv) else none
    else none
  | _ => none

/-- One decimal digit as a character. -/
def digitChar (n : Nat) : Char := Char.ofNat (48 + n % 10)

/-- Zero-padded two-digit rendering. -/
def pad2 (n : Nat) : List Char := [digitChar (n / 10), digitChar n]

/-- Zero-padded four-digit rendering. -/
def pad4 (n : Nat) : List Char :=
  [digitChar (n / 1000), digitChar (n / 100), digitChar (n / 10), digitChar n]

/-- Models `.strftime("%Y-%m-%d")` on the parsed date. -/
def strftimeYmd : Nat × Nat × Nat → String
  | (y, m, d) => String.mk (pad4 y ++ ['-'] ++ pad2 m ++ ['-'] ++ pad2 d)

/-! ### The raw record shape

One GraphQL edge, as consumed by the main loop.  Fields the loop reads
through unconditionally are plain; fields whose JSON null the claims
exercise are `Option`. -/

/-- The `latestSnapshot.summary` object (null edges of the claims use
`none` at the `Summary` level). -/
structure Summary where
  subjects : List String
  modalities : List String
  secondaryModalities : List String
  /-- `subjectMetadata`: null or a list of objects; each entry is the
  entry's `age` value (null ages allowed). -/
  subjectMetadata : Option (List (Option Int))
  tasks : List String
deriving DecidableEq

/-- The `dataset.metadata` object. -/
structure MetadataObj where
  trialCount : Option Int
  studyDesign : Option String
  studyDomain : Option String
  studyLongitudinal : Option String
  dataProcessed : Option Bool
  species : Option String
  associatedPaperDOI : Option String
  openneuroPaperDOI : Option String
  dxStatus : Option String
  affirmedConsent : Option Bool
  affirmedDefaced : Option Bool
deriving DecidableEq

/-- The `latestSnapshot.dataset` object. -/
structure DatasetObj where
  name : Option String
  metadata : MetadataObj
deriving DecidableEq

/-- The `latestSnapshot.description` object. -/
structure DescriptionObj where
  SeniorAuthor : Option String
deriving DecidableEq

/-- The `latestSnapshot` object. -/
structure SnapshotObj where
  tag : String
  created : Option String
  size : Option Int
  dataset : DatasetObj
  description : DescriptionObj
  summary : Option Summary
deriving DecidableEq

/-- The `node` object of one edge. -/
structure NodeObj where
  id : String
  publishDate : Option String
  latestSnapshot : SnapshotObj
deriving DecidableEq

/-- One non-null edge: a pagination cursor plus the dataset node. -/
structure Edge where
  cursor : String
  node : NodeObj
deriving DecidableEq

/-- One page of the paginated response: the raw `edges` list, where
`none` models a JSON-null edge (skipped by `if not ds: continue`). -/
abbrev Page := List (Option Edge)

/-! ### The main loop -/

/-- The loop-carried Python locals that are only conditionally assigned
inside the record loop.  `none` models "not yet bound" (referencing such
a variable raises `NameError`); once a record assigns them they keep
their value into later iterations. -/
structure RowVars where
  dataset_made_public : Option String
  number_of_subjects : Option String
  modalities_available : Option String
  ages : Option String
  tasks_completed : Option String
deriving DecidableEq

/-- The variable state before the first record of the run. -/
def initVars : RowVars := ⟨none, none, none, none, none⟩

/-- The boolean-valued slice of the metadata dictionary, as the script
passes it to `code_bool`. -/
def metaBoolDict (m : MetadataObj) : List (String × Option Bool) :=
  [("dataProcessed", m.dataProcessed), ("affirmedConsent", m.affirmedConsent),
   ("affirmedDefaced", m.affirmedDefaced)]

/-- `longitudinal` as derived in the main loop: string equality against
the sentinel `"Longitudinal"` (JSON null compares unequal, giving "No"). -/
def longitudinalOf (v : Option String) : String :=
  if v = some "Longitudinal" then "Yes" else "No"

/-- Models `"" if x is None else str(x)` for a string-valued cell. -/
def optStr (x : Option String) : String := x.getD ""

/-- Models `"" if x is None else str(x)` for an integer-valued cell. -/
def optIntStr : Option Int → String
  | none => ""
  | some n => toString n

/-- Digits of a natural number, most significant first (fuel-based so the
kernel can evaluate it). -/
def natCharsAux : Nat → Nat → List Char
  | 0, _ => []
  | fuel + 1, n => if n < 10 then [digitChar n] else natCharsAux fuel (n / 10) ++ [digitChar n]

/-- Decimal rendering of a natural number. -/
def natChars (n : Nat) : List Char := natCharsAux (n + 1) n

/-- Models `str(round(size / 1024**3, 2))`: gigabytes at two decimals,
rounding half up at the hundredth (a model of the float rounding; no
claim depends on its exact ties), rendered the way Python prints the
resulting float. -/
def round2GBStr (n : Int) : String :=
  let t := n.toNat
  let h := (t * 100 + 2 ^ 29) / 2 ^ 30
  let ip := h / 100
  let fr := h % 100
  String.mk (natChars ip ++
    (if fr % 10 = 0 then ['.', digitChar (fr / 10)]
     else ['.', digitChar (fr / 10), digitChar fr]))

/-- The body of `for ds in response[...]["edges"]` for one non-null edge:
normalizes the record into the 22-column row, threading the
conditionally-assigned locals.  Exceptions of the Python body map to
`Except.error`: only the `publishDate` parse is guarded, and its
`except TypeError:` arm leaves `dataset_made_public` unassigned. -/
def processNode (st : RowVars) (ds : Edge) : Except PyErr (RowVars × List String) := do
  let node := ds.node
  let dataset_field := node.latestSnapshot.dataset
  let summary_field := node.latestSnapshot.summary
  let accession_number := node.id
  -- try: strptime(ds["node"]["publishDate"][:10]) ... except TypeError: pass
  -- (a null publishDate raises TypeError at the slice; a malformed string
  -- raises ValueError, which the except clause does not catch)
  let st ← match node.publishDate with
    | none => pure st
    | some pd =>
      match strptimeYmd (takeChars 10 pd) with
      | none => Except.error PyErr.valueError
      | some ymd => pure { st with dataset_made_public := some (strftimeYmd ymd) }
  let dataset_url :=
    "https://openneuro.org/datasets/" ++ accession_number ++ "/versions/" ++
      node.latestSnapshot.tag
  let dataset_name := dataset_field.name
  -- strptime on latestSnapshot["created"] is not guarded at all
  let most_recent_snapshot_date ← match node.latestSnapshot.created with
    | none => Except.error PyErr.typeError
    | some c =>
      match strptimeYmd (takeChars 10 c) with
      | none => Except.error PyErr.valueError
      | some ymd => pure (strftimeYmd ymd)
  -- `if ds[...]["size"]:` — a null or zero size is falsy
  let size_gb := match node.latestSnapshot.size with
    | none => none
    | some n => if n = 0 then none else some (round2GBStr n)
  -- `if summary_field is not None:` — on the else path the four locals
  -- keep whatever value a previous iteration left in them
  let st ← match summary_field with
    | none => pure st
    | some sf => do
      let mods ← format_modalities (sf.secondaryModalities ++ sf.modalities)
      pure { st with
        number_of_subjects := some (toString sf.subjects.length),
        modalities_available := some mods,
        ages := some (format_ages sf.subjectMetadata),
        tasks_completed := some (joinSep ", " sf.tasks) }
  let m := dataset_field.metadata
  let dx_status := m.dxStatus
  let number_of_trials := m.trialCount
  let study_design := m.studyDesign
  let domain_studied := m.studyDomain
  let longitudinal := longitudinalOf m.studyLongitudinal
  let processed_data := code_bool (metaBoolDict m) "dataProcessed"
  let species := m.species
  let nondefaced_consent := code_bool (metaBoolDict m) "affirmedConsent"
  let affirmed_defaced := code_bool (metaBoolDict m) "affirmedDefaced"
  let doi_of_paper_associated_with_ds := m.associatedPaperDOI
  let doi_of_paper_because_ds_on_openneuro := m.openneuroPaperDOI
  let senior_author := format_name node.latestSnapshot.description.SeniorAuthor
  -- line_raw: reading a never-assigned local raises NameError
  let dataset_made_public ← match st.dataset_made_public with
    | none => Except.error PyErr.nameError
    | some v => pure v
  let number_of_subjects ← match st.number_of_subjects with
    | none => Except.error PyErr.nameError
    | some v => pure v
  let modalities_available ← match st.modalities_available with
    | none => Except.error PyErr.nameError
    | some v => pure v
  let ages ← match st.ages with
    | none => Except.error PyErr.nameError
    | some v => pure v
  let tasks_completed ← match st.tasks_completed with
    | none => Except.error PyErr.nameError
    | some v => pure v
  let line : List String :=
    [accession_number, dataset_url, optStr dataset_name, dataset_made_public,
     most_recent_snapshot_date, number_of_subjects, modalities_available,
     optStr dx_status, ages, tasks_completed, optIntStr number_of_trials,
     optStr study_design, optStr domain_studied, longitudinal, processed_data,
     optStr species, nondefaced_consent, affirmed_defaced,
     optStr doi_of_paper_associated_with_ds,
     optStr doi_of_paper_because_ds_on_openneuro, senior_author,
     optStr size_gb]
  pure (st, line)

/-- The record loop over one page: null edges are skipped
(`if not ds: continue`), rows are appended in order, the first uncaught
exception aborts the run. -/
def processPage (st : RowVars) (page : Page) (out : List (List String)) :
    Except PyErr (RowVars × List (List String)) :=
  match page with
  | [] => Except.ok (st, out)
  | none :: rest => processPage st rest out
  | some e :: rest =>
    match processNode st e with
    | Except.error err => Except.error err
    | Except.ok (st2, row) => processPage st2 rest (out ++ [row])

/-- What the loop does after processing a page. -/
inductive StepDecision where
  | stop
  | fetch (cursor : String)
  | abort (e : PyErr)
deriving DecidableEq

/-- Lines 218-222 of the source: `break` when the raw edge count is below
25; otherwise read `ds["cursor"]` from the loop variable, which after the
`for` holds the page's last raw edge — `None["cursor"]` raises
`TypeError`.  (The `getLast? = none` arm is unreachable: a page with at
least 25 edges is non-empty.) -/
def nextStep (page : Page) : StepDecision :=
  if page.length < 25 then StepDecision.stop
  else
    match page.getLast? with
    | some (some e) => StepDecision.fetch e.cursor
    | some none => StepDecision.abort PyErr.typeError
    | none => StepDecision.abort PyErr.typeError

/-- The effect of one loop iteration on an already-received page: process
its records, then either finish, fail, or request the next page. -/
inductive PageOutcome where
  | failed (e : PyErr)
  | done (rows : List (List String))
  | more (st : RowVars) (rows : List (List String)) (cursor : String)
deriving DecidableEq

/-- One iteration of the `while True:` body (lines 140-222): the record
loop over the page, the `break` test, and the cursor read. -/
def stepPage (st : RowVars) (out : List (List String)) (page : Page) : PageOutcome :=
  match processPage st page out with
  | Except.error e => PageOutcome.failed e
  | Except.ok (st2, out2) =>
    match nextStep page with
    | StepDecision.stop => PageOutcome.done out2
    | StepDecision.abort e => PageOutcome.failed e
    | StepDecision.fetch cur => PageOutcome.more st2 out2 cur

/-- The rest of the pagination loop after one iteration's outcome.
`future` models the transport: the response to the n-th subsequent POST
(`none` = transport/parse failure; an exhausted list also models an
unreachable server).  Returns the cursors of the requests the loop
actually issued, paired with the outcome of the run. -/
def runLoop : PageOutcome → List (Option Page) → List String × Except PyErr (List (List String))
  | PageOutcome.failed e, _ => ([], Except.error e)
  | PageOutcome.done rows, _ => ([], Except.ok rows)
  | PageOutcome.more _ _ cur, [] => ([cur], Except.error PyErr.transportError)
  | PageOutcome.more _ _ cur, none :: _ => ([cur], Except.error PyErr.transportError)
  | PageOutcome.more st2 rows cur, some p :: rest =>
    (cur :: (runLoop (stepPage st2 rows p) rest).1, (runLoop (stepPage st2 rows p) rest).2)

/-- The pagination loop, starting from an already-received page. -/
def runFrom (st : RowVars) (out : List (List String)) (page : Page)
    (future : List (Option Page)) : List String × Except PyErr (List (List String)) :=
  runLoop (stepPage st out page) future

/-- The whole fetch phase: the initial POST (lines 135-136) followed by
the loop.  `responses.head?` answers the initial request.  Returns the
total number of HTTP requests issued and the outcome; there is no retry
anywhere — any failed request is fatal at once. -/
def run (responses : List (Option Page)) : Nat × Except PyErr (List (List String)) :=
  match responses with
  | [] => (1, Except.error PyErr.transportError)
  | none :: _ => (1, Except.error PyErr.transportError)
  | some p :: rest =>
    (1 + (runFrom initVars [] p rest).1.length, (runFrom initVars [] p rest).2)

/-! ### Collector / serializer

Lines 254-258: `set_index("accession_number")`, `sort_index()`,
`groupby(df.index).first()`, `to_csv`.  The key is the row's first cell;
the sort is modelled as a stable insertion sort on the key (code-point
order, matching Python string comparison); `groupby(...).first()` keeps,
for each key, the first row of the sorted frame (every cell is a string,
so pandas' NA-skipping never kicks in). -/

/-- The accession-number key of a row (its first cell). -/
def rkey (r : List String) : String := r.headD ""

/-- Code-point lexicographic `≤` on character lists, the order Python
uses to compare strings. -/
def lexLe : List Char → List Char → Bool
  | [], _ => true
  | _ :: _, [] => false
  | a :: as, b :: bs => if a.toNat = b.toNat then lexLe as bs else decide (a.toNat < b.toNat)

/-- Key comparison used by the index sort. -/
def keyLe (a b : String) : Bool := lexLe a.data b.data

/-- Stable insertion of a row into a key-sorted list of rows. -/
def insortRow (r : List String) : List (List String) → List (List String)
  | [] => [r]
  | y :: ys => if keyLe (rkey r) (rkey y) then r :: y :: ys else y :: insortRow r ys

/-- Stable sort of the rows by ascending accession number
(models `df.sort_index()`). -/
def rowSort : List (List String) → List (List String)
  | [] => []
  | r :: rest => insortRow r (rowSort rest)

/-- Models `groupby(df.index).first()` on an already-sorted frame: keep
each row whose key has not been seen yet. -/
def dedupByKey (seen : List String) : List (List String) → List (List String)
  | [] => []
  | r :: rest =>
    if rkey r ∈ seen then dedupByKey seen rest
    else r :: dedupByKey (rkey r :: seen) rest

/-- The final table: rows sorted ascending by accession number, one row
per distinct key, first-in-sorted-order wins. -/
def finalTable (rows : List (List String)) : List (List String) :=
  dedupByKey [] (rowSort rows)

/-- The observable outcome of the whole script: the rows of
`metadata.csv` on success, the uncaught exception (non-zero exit, no file
written) otherwise. -/
def metadata_csv (responses : List (Option Page)) : Except PyErr (List (List String)) :=
  match run responses with
  | (_, Except.error e) => Except.error e
  | (_, Except.ok rows) => Except.ok (finalTable rows)

/-! ### Spec-side definitions

These follow the wording of the claims (not the source) and are only
compared against the source-derived definitions above. -/

/-- Drop a null or zero age, and test a surviving age with `q` (the
element-level step of the amended C6 reading). -/
def truthyPass (q : Int → Bool) : Option Int → Bool
  | none => false
  | some x => !(decide (x = 0)) && q x

/-- Does the entry hold a non-null, non-zero age inside `[lo, hi]`? -/
def keepAge (lo hi : Int) : Option Int → Bool :=
  truthyPass (fun x => decide (lo ≤ x) && decide (x ≤ hi))

/-- Spec wording of C6 (as amended): the labels of the buckets that
contain at least one non-null, non-zero age, in the fixed bucket order. -/
def bucketsOf (l : List (Option Int)) : List String :=
  (age_dict.filter (fun kv => l.any (keepAge kv.1.1 kv.1.2))).map (fun kv => kv.2)

/-- Spec wording of C8 (as amended): the rendering of one boolean-valued
metadata field. -/
def renderBool : Option Bool → String
  | some true => "Yes"
  | some false => "No"
  | none => "n/a"

/-! ### Concrete records used by the counterexamples and witnesses -/

/-- A fully-populated metadata object. -/
def goodMeta : MetadataObj :=
  ⟨some 10, some "design", some "domain", some "Longitudinal", some true,
   some "Homo sapiens", some "doi:1", some "doi:2", some "dx", some true, some false⟩

/-- A summary with two subjects. -/
def goodSummary : Summary :=
  ⟨["s1", "s2"], ["EEG"], [], some [some 9, some 12], ["rest"]⟩

/-- A summary with one subject. -/
def smallSummary : Summary :=
  ⟨["s1"], ["EEG"], [], some [some 9], ["rest"]⟩

/-- A record with the given accession number, publish date, snapshot
creation date and summary, everything else fixed and well-formed. -/
def mkEdge (acc : String) (pd created : Option String) (summ : Option Summary) : Edge :=
  ⟨"cur1", ⟨acc, pd, ⟨"1.0.0", created, some 1073741824, ⟨some "Name", goodMeta⟩,
    ⟨some "Doe, Jane"⟩, summ⟩⟩⟩

/-- A record whose metadata booleans and `studyLongitudinal` are the
given values, everything else fixed and well-formed. -/
def edgeWithMeta (sl : Option String) (dp ac ad : Option Bool) : Edge :=
  ⟨"cur1", ⟨"ds000001", some "2020-01-02", ⟨"1.0.0", some "2020-01-03", some 1073741824,
    ⟨some "Name", ⟨some 10, some "design", some "domain", sl, dp, some "Homo sapiens",
      some "doi:1", some "doi:2", some "dx", ac, ad⟩⟩,
    ⟨some "Doe, Jane"⟩, some goodSummary⟩⟩⟩

/-- A 25-edge page ending in a non-null edge (used by witnesses). -/
def wPageFetch : Page :=
  List.replicate 24 (none : Option Edge) ++
    [some (mkEdge "ds000009" (some "2020-01-02") (some "2020-01-03") (some goodSummary))]

/-- The result of processing `wPageFetch` (one row: the 24 null edges are
skipped). -/
def wPairFetch : RowVars × List (List String) :=
  ((processPage initVars wPageFetch []).toOption).getD (initVars, [])

/-- Two-record page whose second record has a null summary, first record
with two subjects. -/
def pageTwoSubjects : Page :=
  [some (mkEdge "ds000001" (some "2020-01-02") (some "2020-01-03") (some goodSummary)),
   some (mkEdge "ds000002" (some "2020-01-04") (some "2020-01-05") none)]

/-- The same page except that the first record has one subject; the
second record is identical to the one in `pageTwoSubjects`. -/
def pageOneSubject : Page :=
  [some (mkEdge "ds000001" (some "2020-01-02") (some "2020-01-03") (some smallSummary)),
   some (mkEdge "ds000002" (some "2020-01-04") (some "2020-01-05") none)]


/-! ## Lemmas -/

/-- `any` over an insertion is `any` of the element and the list. -/
theorem any_insortAsc (q : Int → Bool) (x : Int) :
    ∀ l : List Int, (insortAsc x l).any q = (q x || l.any q)
  | [] => by simp [insortAsc]
  | y :: ys => by
    by_cases h : x ≤ y
    · simp [insortAsc, h]
    · simp [insortAsc, h, any_insortAsc q x ys, Bool.or_left_comm]

/-- Sorting does not change `any`. -/
theorem any_sortAsc (q : Int → Bool) : ∀ l : List Int, (sortAsc l).any q = l.any q
  | [] => rfl
  | x :: xs => by simp [sortAsc, any_insortAsc, any_sortAsc q xs]

/-- The truthiness filter fuses into the element predicate. -/
theorem any_truthy (q : Int → Bool) :
    ∀ l : List (Option Int), (l.filterMap truthyAge).any q = l.any (truthyPass q)
  | [] => rfl
  | a :: rest => by
    cases a with
    | none => simpa [truthyAge, truthyPass] using any_truthy q rest
    | some x =>
      by_cases hx : x = 0
      · subst hx; simpa [truthyAge, truthyPass] using any_truthy q rest
      · simp [truthyAge, truthyPass, hx, any_truthy q rest]

/-- `format_ages` on a non-null list computes the bucket labels of the
amended C6 reading. -/
theorem format_ages_eq_buckets (l : List (Option Int)) :
    format_ages (some l) = joinSep ", " (bucketsOf l) := by
  by_cases hl : l.isEmpty = true
  · have h0 : l = [] := by
      cases l with
      | nil => rfl
      | cons a as => simp [List.isEmpty] at hl
    subst h0; rfl
  · have hfun : (fun kv : (Int × Int) × String =>
        (sortAsc (l.filterMap truthyAge)).any (fun x =>
          decide (kv.1.1 ≤ x) && decide (x ≤ kv.1.2))) =
        fun kv => l.any (keepAge kv.1.1 kv.1.2) := by
      funext kv
      rw [any_sortAsc, any_truthy]
      rfl
    simp only [format_ages, bucketsOf]
    rw [hfun, if_neg hl]

/-! ## Claim C6 -/

/-- C6 counterexample: a single subject of age 0 lies in the inclusive
bucket 0-10, so the claim predicts the output "0-10"; the code's
truthiness filter drops the age and yields the empty string. -/
theorem C6_age_bucket_cex :
    format_ages (some [some 0]) = "" ∧ ("" : String) ≠ "0-10" := by
  constructor
  · decide
  · decide

/-- C6 (amended): null and zero ages are dropped; every other age is
bucketed into the seven fixed inclusive ranges (66+ being 66..1000), the
output is the labels of the inhabited buckets joined with ", " in the
fixed ascending order, ages [9, 12, 40] give "0-10, 11-17, 35-50", and a
null or empty age list gives the empty string. -/
theorem C6_age_bucket_amended (l : List (Option Int)) :
    format_ages (some l) = joinSep ", " (bucketsOf l) ∧
    format_ages none = "" ∧
    format_ages (some []) = "" ∧
    format_ages (some [some 9, some 12, some 40]) = "0-10, 11-17, 35-50" :=
  ⟨format_ages_eq_buckets l, rfl, rfl, by decide⟩

/-! ## Claim C7 -/

/-- C7 counterexample: with the umbrella entry, an MRI sub-type entry and
"EEG", the sub-type entry does not remain in the output — it is rewritten
to "MRI - anat", so the output differs from the claimed
"MRI_ANATOMICAL, EEG". -/
theorem C7_modalities_cex :
    format_modalities ["MRI", "MRI_ANATOMICAL", "EEG"] = Except.ok "MRI - anat, EEG" ∧
    (Except.ok "MRI - anat, EEG" : Except PyErr String) ≠ Except.ok "MRI_ANATOMICAL, EEG" := by
  constructor
  · decide
  · decide

/-- C7 (amended): when no entry contains "MRI_", the concatenated list is
joined unchanged; when some entry contains "MRI_", the umbrella entry
"MRI" is removed and every entry containing "MRI" is rewritten to
"MRI - <scan code>" via the fixed scan-type table (so sub-type entries do
not remain verbatim), and if no umbrella entry is present the removal
raises ValueError and aborts the run. -/
theorem C7_modalities_amended (l : List String) :
    (l.any (fun e => containsSub e "MRI_") = false →
      format_modalities l = Except.ok (joinSep ", " l)) ∧
    format_modalities ["MRI", "MRI_ANATOMICAL", "EEG"] = Except.ok "MRI - anat, EEG" ∧
    format_modalities ["MRI_DIFFUSION", "EEG"] = Except.error PyErr.valueError := by
  refine ⟨?_, by decide, by decide⟩
  intro h
  simp [format_modalities, h]

/-- Witness for C7 (amended) at a list with no MRI sub-type marker. -/
theorem C7_modalities_amended_witness :
    format_modalities ["iEEG", "EEG"] = Except.ok (joinSep ", " ["iEEG", "EEG"]) :=
  (C7_modalities_amended ["iEEG", "EEG"]).1 (by decide)

/-! ## Claim C10 -/

/-- A list free of the separator splits into itself. -/
theorem splitOnChar_eq_single {sep : Char} :
    ∀ l : List Char, sep ∉ l → splitOnChar sep l = [l]
  | [], _ => rfl
  | c :: rest, h => by
    have hc : ¬ c = sep := fun e => h (e ▸ List.mem_cons_self c rest)
    have hr := splitOnChar_eq_single rest (fun m => h (List.mem_cons_of_mem _ m))
    simp [splitOnChar, hr, hc]

/-- Appending strings appends the underlying character lists. -/
theorem strmk_append (l : List Char) (s : String) :
    String.mk l ++ s = String.mk (l ++ s.data) := by
  cases s
  rfl

/-- C10: a non-empty senior-author name with no comma and no space is
rendered as the token followed by ", " with an empty given-name part. -/
theorem C10_single_token_name (n : String) (h1 : n.data ≠ [])
    (h2 : ¬ ',' ∈ n.data) (h3 : ¬ ' ' ∈ n.data) :
    format_name (some n) = n ++ ", " := by
  obtain ⟨l⟩ := n
  have hs : splitOnChar ' ' l = [l] := splitOnChar_eq_single l h3
  simp only [format_name, h1, h2, if_neg, not_false_iff, if_pos, hs]
  rw [strmk_append]
  simp [List.intercalate]

/-- Witness for C10 at the name "Cher". -/
theorem C10_single_token_name_witness : format_name (some "Cher") = "Cher" ++ ", " :=
  C10_single_token_name "Cher" (by decide) (by decide) (by decide)

/-! ## Claim C1 -/

/-- C1 counterexample: a page of exactly 25 edges that are all null has
raw edge count 25, yet the loop does not issue another page request — it
aborts with a TypeError while reading the cursor from the null last edge
(no cursor is ever sent). -/
theorem C1_pagination_cex :
    nextStep (List.replicate 25 (none : Option Edge)) = StepDecision.abort PyErr.typeError ∧
    (runFrom initVars [] (List.replicate 25 (none : Option Edge)) [some []]).1 = [] := by
  constructor
  · decide
  · decide

/-- C1 (amended): the loop stops exactly when the raw edge count
(counting nulls) is below 25; it issues another page request exactly when
the count is at least 25 and the page's last raw edge is non-null (a
25-edge page whose last edge is null aborts with TypeError instead of
fetching); on a stop no further request is issued, and on a fetch the
next request carries the decided cursor. -/
theorem C1_pagination_amended (page : Page) :
    (nextStep page = StepDecision.stop ↔ page.length < 25) ∧
    ((∃ c, nextStep page = StepDecision.fetch c) ↔
      25 ≤ page.length ∧ ∃ e, page.getLast? = some (some e)) ∧
    (∀ st out future, nextStep page = StepDecision.stop →
      (runFrom st out page future).1 = []) ∧
    (∀ st out future cur st2 out2, processPage st page out = Except.ok (st2, out2) →
      nextStep page = StepDecision.fetch cur →
      (runFrom st out page future).1.head? = some cur) := by
  refine ⟨?_, ?_, ?_, ?_⟩
  · by_cases hl : page.length < 25
    · simp [nextStep, hl]
    · rcases hg : page.getLast? with _ | (_ | e) <;> simp [nextStep, hl, hg]
  · constructor
    · rintro ⟨c, hc⟩
      by_cases hl : page.length < 25
      · simp [nextStep, hl] at hc
      · rcases hg : page.getLast? with _ | (_ | e)
        · simp [nextStep, hl, hg] at hc
        · simp [nextStep, hl, hg] at hc
        · exact ⟨Nat.le_of_not_lt hl, e, rfl⟩
    · rintro ⟨hl, e, hg⟩
      exact ⟨e.cursor, by simp [nextStep, Nat.not_lt.mpr hl, hg]⟩
  · intro st out future h
    cases hp : processPage st page out with
    | error e => simp [runFrom, stepPage, hp, runLoop]
    | ok pr =>
      obtain ⟨st2, out2⟩ := pr
      simp [runFrom, stepPage, hp, h, runLoop]
  · intro st out future cur st2 out2 h1 h2
    rcases future with _ | ⟨_ | p, rest⟩ <;> simp [runFrom, stepPage, h1, h2, runLoop]

/-- Witness for C1 (amended): a one-edge page stops the loop and issues
no further request. -/
theorem C1_pagination_amended_witness :
    (runFrom initVars [] [(none : Option Edge)] []).1 = [] :=
  (C1_pagination_amended [none]).2.2.1 initVars [] [] (by decide)

/-! ## Claim C9 -/

/-- C9: on a page with at least 25 edges the next cursor is read from the
page's last raw edge; a null last edge makes that read raise TypeError
and abort the run — the null-edge skip protects only row production. -/
theorem C9_cursor_from_last_edge (page : Page) (hl : 25 ≤ page.length) :
    (∀ e, page.getLast? = some (some e) → nextStep page = StepDecision.fetch e.cursor) ∧
    (page.getLast? = some none → nextStep page = StepDecision.abort PyErr.typeError) := by
  have hnl : ¬ page.length < 25 := by omega
  constructor
  · intro e he
    simp [nextStep, hnl, he]
  · intro he
    simp [nextStep, hnl, he]

/-- Witness for C9 at a concrete 25-edge page ending in a non-null edge. -/
theorem C9_cursor_from_last_edge_witness :
    nextStep wPageFetch = StepDecision.fetch
      (mkEdge "ds000009" (some "2020-01-02") (some "2020-01-03") (some goodSummary)).cursor :=
  (C9_cursor_from_last_edge wPageFetch (by decide)).1
    (mkEdge "ds000009" (some "2020-01-02") (some "2020-01-03") (some goodSummary)) (by decide)

/-! ## Claim C4 -/

/-- C4 counterexample: a single transport failure on the initial page
request aborts the run at once — exactly one request is ever issued, with
no second or third attempt, even though the very next response would have
succeeded; no output is produced. -/
theorem C4_retry_cex :
    run [none, some []] = (1, Except.error PyErr.transportError) ∧
    run [some []] = (1, Except.ok []) ∧
    metadata_csv [none, some []] = Except.error PyErr.transportError := by
  refine ⟨?_, ?_, ?_⟩
  · decide
  · decide
  · decide

/-- C4 (amended): there is no retry: a transport/parse failure on any
page request (initial or mid-pagination) terminates the run immediately
with the uncaught exception — a non-zero exit — after issuing that one
request only, and no output file is created or overwritten. -/
theorem C4_no_retry_amended (rest : List (Option Page)) (st : RowVars)
    (out : List (List String)) (page : Page) (future : List (Option Page))
    (cur : String) (st2 : RowVars) (out2 : List (List String)) :
    (run (none :: rest) = (1, Except.error PyErr.transportError) ∧
     metadata_csv (none :: rest) = Except.error PyErr.transportError) ∧
    (processPage st page out = Except.ok (st2, out2) →
      nextStep page = StepDecision.fetch cur →
      runFrom st out page (none :: future) = ([cur], Except.error PyErr.transportError)) := by
  refine ⟨⟨rfl, rfl⟩, ?_⟩
  intro h1 h2
  simp [runFrom, stepPage, h1, h2, runLoop]

/-- Witness for C4 (amended): a failing second request right after a full
first page. -/
theorem C4_no_retry_amended_witness :
    runFrom initVars [] wPageFetch [none] = (["cur1"], Except.error PyErr.transportError) :=
  (C4_no_retry_amended [] initVars [] wPageFetch [] "cur1" wPairFetch.1 wPairFetch.2).2
    (by decide) (by decide)

/-! ## Claim C3 -/

/-- C3 counterexample: a record whose snapshot `created` field is null
raises TypeError in an unguarded field derivation; the error is not
caught at field granularity — the whole run aborts and the row is
dropped. -/
theorem C3_field_guard_cex :
    processNode initVars
      (mkEdge "ds000001" (some "2020-01-02") none (some goodSummary)) =
      Except.error PyErr.typeError := by
  decide

/-- C3 (amended): only the `publishDate` derivation is guarded, and only
against TypeError; every other field derivation fault (e.g. a null
`created`) aborts the run and drops the row.  Moreover the guarded arm
does not map the field to an absent value: on the first record it leaves
the variable unbound (NameError aborts the run), and on later records
`made_public` keeps the value assigned by a previous record. -/
theorem C3_field_guard_amended :
    processNode initVars
      (mkEdge "ds000001" (some "2020-01-02") none (some goodSummary)) =
      Except.error PyErr.typeError ∧
    processNode initVars
      (mkEdge "ds000002" none (some "2020-01-03") (some goodSummary)) =
      Except.error PyErr.nameError ∧
    ∀ v : String,
      (processNode { initVars with dataset_made_public := some v }
        (mkEdge "ds000002" none (some "2020-01-03") (some goodSummary))).map
        (fun p => p.2.get? 3) = Except.ok (some v) := by
  refine ⟨by decide, by decide, ?_⟩
  intro v
  rfl

/-! ## Claim C5 -/

/-- C5: normalization is not a pure function of the single record.  The
second record of both pages is identical (null summary), yet its row
shows `num_subjects` "2" after a two-subject predecessor and "1" after a
one-subject predecessor — the value leaks from the previous record's
loop variables.  When such a record comes first, the run aborts with
NameError instead. -/
theorem C5_hidden_state :
    (processPage initVars pageTwoSubjects []).map
      (fun p => p.2.map (fun r => r.get? 5)) = Except.ok [some "2", some "2"] ∧
    (processPage initVars pageOneSubject []).map
      (fun p => p.2.map (fun r => r.get? 5)) = Except.ok [some "1", some "1"] ∧
    processNode initVars (mkEdge "ds000002" (some "2020-01-04") (some "2020-01-05") none) =
      Except.error PyErr.nameError := by
  refine ⟨by decide, by decide, by decide⟩

/-! ## Claim C8 -/

/-- The four boolean-ish columns of a row, with the metadata values left
symbolic. -/
theorem processNode_meta_cols (sl : Option String) (dp ac ad : Option Bool) :
    (processNode initVars (edgeWithMeta sl dp ac ad)).map
      (fun p => (p.2.get? 13, p.2.get? 14, p.2.get? 16, p.2.get? 17)) =
    Except.ok (some (longitudinalOf sl),
      some (code_bool [("dataProcessed", dp), ("affirmedConsent", ac),
        ("affirmedDefaced", ad)] "dataProcessed"),
      some (code_bool [("dataProcessed", dp), ("affirmedConsent", ac),
        ("affirmedDefaced", ad)] "affirmedConsent"),
      some (code_bool [("dataProcessed", dp), ("affirmedConsent", ac),
        ("affirmedDefaced", ad)] "affirmedDefaced")) := rfl

/-- `code_bool` on the first metadata field. -/
theorem code_bool_meta_first (dp ac ad : Option Bool) :
    code_bool [("dataProcessed", dp), ("affirmedConsent", ac),
      ("affirmedDefaced", ad)] "dataProcessed" = renderBool dp := by
  cases dp with
  | none => rfl
  | some b => cases b <;> rfl

/-- `code_bool` on the second metadata field. -/
theorem code_bool_meta_second (dp ac ad : Option Bool) :
    code_bool [("dataProcessed", dp), ("affirmedConsent", ac),
      ("affirmedDefaced", ad)] "affirmedConsent" = renderBool ac := by
  cases ac with
  | none => rfl
  | some b => cases b <;> rfl

/-- `code_bool` on the third metadata field. -/
theorem code_bool_meta_third (dp ac ad : Option Bool) :
    code_bool [("dataProcessed", dp), ("affirmedConsent", ac),
      ("affirmedDefaced", ad)] "affirmedDefaced" = renderBool ad := by
  cases ad with
  | none => rfl
  | some b => cases b <;> rfl

/-- C8 counterexample: with `studyLongitudinal` and `dataProcessed` both
null (unset), the row renders "No" and "n/a" respectively — neither field
is rendered absent (the empty cell), contradicting the claimed
"absent when unset". -/
theorem C8_bool_render_cex :
    (processNode initVars (edgeWithMeta none none (some true) (some false))).map
      (fun p => (p.2.get? 13, p.2.get? 14)) = Except.ok (some "No", some "n/a") ∧
    some "n/a" ≠ (some "" : Option String) ∧
    some "No" ≠ (some "" : Option String) := by
  refine ⟨by decide, by decide, by decide⟩

/-- C8 (amended): `processed_data`, `nondefaced_consent` and
`affirmed_defaced` render "Yes"/"No"/"n/a" for true/false/unset;
`longitudinal` renders "Yes" exactly when the raw field equals the
sentinel string "Longitudinal" and "No" otherwise, including when unset —
no boolean-valued field ever renders absent. -/
theorem C8_bool_render_amended (sl : Option String) (dp ac ad : Option Bool) :
    (processNode initVars (edgeWithMeta sl dp ac ad)).map
      (fun p => (p.2.get? 13, p.2.get? 14, p.2.get? 16, p.2.get? 17)) =
    Except.ok (some (if sl = some "Longitudinal" then "Yes" else "No"),
      some (renderBool dp), some (renderBool ac), some (renderBool ad)) := by
  rw [processNode_meta_cols, code_bool_meta_first, code_bool_meta_second,
    code_bool_meta_third]
  rfl

/-! ## Claim C2 -/

/-- Totality of the code-point order on character lists. -/
theorem lexLe_total : ∀ a b : List Char, lexLe a b = true ∨ lexLe b a = true
  | [], _ => Or.inl rfl
  | _ :: _, [] => Or.inr rfl
  | a :: as, b :: bs => by
    by_cases h : a.toNat = b.toNat
    · have ih := lexLe_total as bs
      simp only [lexLe, if_pos h, if_pos h.symm]
      exact ih
    · have h2 : ¬ b.toNat = a.toNat := fun e => h e.symm
      simp only [lexLe, if_neg h, if_neg h2, decide_eq_true_eq]
      omega

/-- Transitivity of the code-point order on character lists. -/
theorem lexLe_trans : ∀ a b c : List Char,
    lexLe a b = true → lexLe b c = true → lexLe a c = true
  | [], _, _, _, _ => rfl
  | _ :: _, [], _, h1, _ => by simp [lexLe] at h1
  | _ :: _, _ :: _, [], _, h2 => by simp [lexLe] at h2
  | a :: as, b :: bs, c :: cs, h1, h2 => by
    by_cases hab : a.toNat = b.toNat <;> by_cases hbc : b.toNat = c.toNat
    · have hac : a.toNat = c.toNat := hab.trans hbc
      simp only [lexLe, if_pos hab, if_pos hbc, if_pos hac] at h1 h2 ⊢
      exact lexLe_trans as bs cs h1 h2
    · have hac : ¬ a.toNat = c.toNat := by omega
      simp only [lexLe, if_pos hab, if_neg hbc, if_neg hac, decide_eq_true_eq] at h1 h2 ⊢
      omega
    · have hac : ¬ a.toNat = c.toNat := by omega
      simp only [lexLe, if_neg hab, if_pos hbc, if_neg hac, decide_eq_true_eq] at h1 h2 ⊢
      omega
    · simp only [lexLe, if_neg hab, if_neg hbc, decide_eq_true_eq] at h1 h2
      have hac : ¬ a.toNat = c.toNat := by omega
      simp only [lexLe, if_neg hac, decide_eq_true_eq]
      omega

/-- Totality of the key order. -/
theorem keyLe_total (a b : String) : keyLe a b = true ∨ keyLe b a = true :=
  lexLe_total a.data b.data

/-- Transitivity of the key order. -/
theorem keyLe_trans (a b c : String) :
    keyLe a b = true → keyLe b c = true → keyLe a c = true :=
  lexLe_trans a.data b.data c.data

/-- Membership after inserting a row. -/
theorem mem_insortRow (r x : List String) :
    ∀ l, x ∈ insortRow r l ↔ x = r ∨ x ∈ l
  | [] => by simp [insortRow]
  | y :: ys => by
    by_cases h : keyLe (rkey r) (rkey y)
    · simp only [insortRow, if_pos h, List.mem_cons]
    · simp only [insortRow, if_neg h, List.mem_cons, mem_insortRow r x ys]
      tauto

/-- Inserting a row preserves key-sortedness. -/
theorem pairwise_insortRow :
    ∀ (r : List String) (l : List (List String)),
    l.Pairwise (fun a b => keyLe (rkey a) (rkey b) = true) →
    (insortRow r l).Pairwise (fun a b => keyLe (rkey a) (rkey b) = true)
  | r, [], _ => by simp [insortRow]
  | r, y :: ys, h => by
    rcases List.pairwise_cons.mp h with ⟨hy, hys⟩
    by_cases hk : keyLe (rkey r) (rkey y) = true
    · simp only [insortRow, if_pos hk]
      refine List.pairwise_cons.mpr ⟨?_, h⟩
      intro z hz
      rcases List.mem_cons.mp hz with rfl | hz2
      · exact hk
      · exact keyLe_trans _ _ _ hk (hy z hz2)
    · simp only [insortRow, if_neg hk]
      refine List.pairwise_cons.mpr ⟨?_, pairwise_insortRow r ys hys⟩
      intro z hz
      rcases (mem_insortRow r z ys).mp hz with heq | hz2
      · subst heq
        rcases keyLe_total (rkey z) (rkey y) with h1 | h1
        · exact absurd h1 hk
        · exact h1
      · exact hy z hz2

/-- The sorted frame is key-sorted. -/
theorem pairwise_rowSort :
    ∀ l : List (List String),
    (rowSort l).Pairwise (fun a b => keyLe (rkey a) (rkey b) = true)
  | [] => List.Pairwise.nil
  | r :: rest => pairwise_insortRow r (rowSort rest) (pairwise_rowSort rest)

/-- Sorting does not change membership. -/
theorem mem_rowSort (x : List String) : ∀ l, x ∈ rowSort l ↔ x ∈ l
  | [] => Iff.rfl
  | r :: rest => by
    simp [rowSort, mem_insortRow, mem_rowSort x rest, List.mem_cons]

/-- Deduplication returns a sublist. -/
theorem dedupByKey_sublist :
    ∀ (seen : List String) (l : List (List String)), (dedupByKey seen l).Sublist l
  | _, [] => List.Sublist.refl []
  | seen, r :: rest => by
    by_cases h : rkey r ∈ seen
    · simp only [dedupByKey, if_pos h]
      exact (dedupByKey_sublist seen rest).cons r
    · simp only [dedupByKey, if_neg h]
      exact (dedupByKey_sublist (rkey r :: seen) rest).cons₂ r

/-- Keys of surviving rows were not previously seen. -/
theorem dedupByKey_key_notmem :
    ∀ (seen : List String) (l : List (List String)) (r : List String),
    r ∈ dedupByKey seen l → rkey r ∉ seen
  | seen, [], r => by simp [dedupByKey]
  | seen, a :: rest, r => by
    by_cases h : rkey a ∈ seen
    · simp only [dedupByKey, if_pos h]
      exact dedupByKey_key_notmem seen rest r
    · simp only [dedupByKey, if_neg h]
      intro hm
      rcases List.mem_cons.mp hm with rfl | h2
      · exact h
      · have := dedupByKey_key_notmem (rkey a :: seen) rest r h2
        exact fun hs => this (List.mem_cons_of_mem _ hs)

/-- Which keys survive deduplication. -/
theorem mem_map_rkey_dedup :
    ∀ (seen : List String) (l : List (List String)) (k : String),
    k ∈ (dedupByKey seen l).map rkey ↔ (k ∈ l.map rkey ∧ k ∉ seen)
  | seen, [], k => by simp [dedupByKey]
  | seen, a :: rest, k => by
    by_cases h : rkey a ∈ seen
    · simp only [dedupByKey, if_pos h, mem_map_rkey_dedup seen rest k,
        List.map_cons, List.mem_cons]
      constructor
      · rintro ⟨h1, h2⟩
        exact ⟨Or.inr h1, h2⟩
      · rintro ⟨h1 | h1, h2⟩
        · exact absurd (h1 ▸ h) h2
        · exact ⟨h1, h2⟩
    · simp only [dedupByKey, if_neg h, List.map_cons, List.mem_cons,
        mem_map_rkey_dedup (rkey a :: seen) rest k]
      by_cases hk : k = rkey a
      · subst hk
        simp [h]
      · simp [hk]

/-- Deduplicated keys are distinct. -/
theorem nodup_map_rkey_dedup :
    ∀ (seen : List String) (l : List (List String)),
    ((dedupByKey seen l).map rkey).Nodup
  | seen, [] => by simp [dedupByKey]
  | seen, a :: rest => by
    by_cases h : rkey a ∈ seen
    · simp only [dedupByKey, if_pos h]
      exact nodup_map_rkey_dedup seen rest
    · simp only [dedupByKey, if_neg h, List.map_cons]
      refine List.nodup_cons.mpr ⟨?_, nodup_map_rkey_dedup _ rest⟩
      intro hm
      exact ((mem_map_rkey_dedup _ _ _).mp hm).2 (List.mem_cons_self _ _)

/-- Every surviving row is the first row with its key. -/
theorem dedupByKey_find :
    ∀ (seen : List String) (l : List (List String)) (r : List String),
    r ∈ dedupByKey seen l → l.find? (fun x => rkey x == rkey r) = some r
  | seen, [], r => by simp [dedupByKey]
  | seen, a :: rest, r => by
    by_cases h : rkey a ∈ seen
    · simp only [dedupByKey, if_pos h]
      intro hm
      have hne : rkey r ∉ seen := dedupByKey_key_notmem seen rest r hm
      have hb : (rkey a == rkey r) = false :=
        beq_eq_false_iff_ne.mpr (fun e => hne (e ▸ h))
      simp only [List.find?_cons, hb]
      exact dedupByKey_find seen rest r hm
    · simp only [dedupByKey, if_neg h]
      intro hm
      rcases List.mem_cons.mp hm with rfl | h2
      · simp only [List.find?_cons, beq_self_eq_true]
      · have hnotin := dedupByKey_key_notmem (rkey a :: seen) rest r h2
        have hb : (rkey a == rkey r) = false :=
          beq_eq_false_iff_ne.mpr
            (fun e => hnotin (e ▸ List.mem_cons_self (rkey a) seen))
        simp only [List.find?_cons, hb]
        exact dedupByKey_find _ rest r h2

/-- C2: in the final table there is exactly one row per distinct
accession number (keys are distinct, and a key appears exactly when some
fetched row carries it), the rows are sorted ascending by accession
number, and the row kept for a key is the first row with that key in the
key-sorted sequence. -/
theorem C2_dedup_sort (rows : List (List String)) :
    ((finalTable rows).map rkey).Nodup ∧
    (∀ k, k ∈ (finalTable rows).map rkey ↔ k ∈ rows.map rkey) ∧
    ((finalTable rows).map rkey).Pairwise (fun a b => keyLe a b = true) ∧
    (∀ r, r ∈ finalTable rows →
      (rowSort rows).find? (fun x => rkey x == rkey r) = some r) := by
  refine ⟨nodup_map_rkey_dedup [] (rowSort rows), ?_, ?_, ?_⟩
  · intro k
    rw [show finalTable rows = dedupByKey [] (rowSort rows) from rfl,
      mem_map_rkey_dedup]
    simp only [List.mem_map, List.not_mem_nil, not_false_iff, and_true]
    constructor
    · rintro ⟨r, hr, rfl⟩
      exact ⟨r, (mem_rowSort r rows).mp hr, rfl⟩
    · rintro ⟨r, hr, rfl⟩
      exact ⟨r, (mem_rowSort r rows).mpr hr, rfl⟩
  · rw [List.pairwise_map]
    exact ((pairwise_rowSort rows).sublist (dedupByKey_sublist [] (rowSort rows)))
  · intro r hr
    exact dedupByKey_find [] (rowSort rows) r hr

/-- Witness for C2 at the three-row example with a duplicated key. -/
theorem C2_dedup_sort_witness :
    (rowSort [["ds002", "b"], ["ds001", "a"], ["ds001", "c"]]).find?
      (fun x => rkey x == rkey ["ds001", "a"]) = some ["ds001", "a"] :=
  (C2_dedup_sort [["ds002", "b"], ["ds001", "a"], ["ds001", "c"]]).2.2.2
    ["ds001", "a"] (by decide)
